import Mathlib

/-!
# node-proxy: the `POST /proxy` handler of `src/index.js`

A shallow embedding of the handler registered by `app.post('/proxy', ...)`.

* Request bodies are JSON values (`JSValue`); strings are well-formed Unicode
  strings, objects are the lists of their own enumerable properties in
  enumeration order.
* What the JavaScript platform and the HTTP client library decide (the `URL`
  constructor, `String.prototype.toUpperCase`, `Number::toString`, the
  network) is a parameter of the model, the record `Host`.
* A run of the handler is a `Trace`: the outbound call it made (if any), the
  response it sent through `res.status(..).json(..)` (if any), and the
  exception that left the handler (if any). Sending a response succeeds
  under the status codes 100 to 999 and throws under any other; the body of a
  response is the value handed to `res.json`, before serialisation.
* Exceptions are the values the `catch` clause can observe: a message, a
  code, a request and a response, as the errors of the language and of the
  client library have them.
-/

set_option autoImplicit false

namespace NodeProxy

/-! ## Values -/

/-- A finite JavaScript number, held exactly as `mantissa * 2 ^ exponent`
(every finite double has this form). -/
structure JSNum where
  mantissa : Int
  exponent : Int
deriving DecidableEq, Repr

/-- The number denoted by a natural number literal. -/
def JSNum.ofNat (n : Nat) : JSNum := ⟨n, 0⟩

/-- The number denoted by an integer literal. -/
def JSNum.ofInt (i : Int) : JSNum := ⟨i, 0⟩

/-- Whether the number is a positive integer: positive, and either the
exponent is non-negative or `2 ^ (-exponent)` divides the mantissa. -/
def JSNum.isPositiveInteger (n : JSNum) : Bool :=
  decide (0 < n.mantissa) &&
    (decide (0 ≤ n.exponent) || decide (n.mantissa % (2 : Int) ^ n.exponent.natAbs = 0))

/-- A JavaScript value as `express.json()` can produce it, plus `undefined`
for what is absent. An object is the list of its own enumerable properties in
enumeration order. -/
inductive JSValue where
  | undefined
  | null
  | bool (b : Bool)
  | num (n : JSNum)
  | str (s : String)
  | arr (items : List JSValue)
  | obj (fields : List (String × JSValue))

namespace JSValue

/-- The value of `ToBoolean(v)`: `undefined`, `null`, `false`, zero and the
empty string are falsy, everything else is truthy. -/
def truthy : JSValue → Bool
  | undefined => false
  | null => false
  | bool b => b
  | num n => decide (n.mantissa ≠ 0)
  | str s => !s.data.isEmpty
  | arr _ => true
  | obj _ => true

/-- The value of `a || b`. -/
def orElse (a b : JSValue) : JSValue := if a.truthy then a else b

/-- Whether `typeof v === 'object'`. -/
def typeofObject : JSValue → Bool
  | null => true
  | arr _ => true
  | obj _ => true
  | _ => false

end JSValue

/-- The pairs `(i, x_i)`, `(i+1, x_(i+1))`, ... of a list, with decimal index
names, as the own properties of an array or a string are named. -/
def indexed {α : Type} : Nat → List α → List (String × α)
  | _, [] => []
  | i, x :: xs => (toString i, x) :: indexed (i + 1) xs

/-- The own enumerable properties of a value, in enumeration order: the
fields of an object, the elements of an array under their indices, the
characters of a string under their indices, nothing for other primitives. -/
def ownEntries : JSValue → List (String × JSValue)
  | .obj fields => fields
  | .arr items => indexed 0 items
  | .str s => indexed 0 (s.data.map fun c => JSValue.str (String.mk [c]))
  | _ => []

/-- The value of `Object.keys(v)`. -/
def objectKeys (v : JSValue) : List String := (ownEntries v).map Prod.fst

/-- The first value stored under `key` in a property list, `undefined` when
there is none. -/
def lookupField (key : String) : List (String × JSValue) → JSValue
  | [] => .undefined
  | (k, v) :: rest => if k = key then v else lookupField key rest

/-- The value of `v?.[key]` for an own property name: `undefined` on
`undefined`, `null` and on values without that property. (None of the names
the handler reads is inherited from a prototype.) -/
def getProp (v : JSValue) (key : String) : JSValue := lookupField key (ownEntries v)

/-- Whether a property list has an entry named `key`. -/
def hasField (key : String) (fields : List (String × JSValue)) : Bool :=
  fields.any fun kv => kv.1 == key

mutual
/-- The value of `ToString(v)`, `none` when the conversion throws a
`TypeError`: an object converts to `[object Object]` unless it has an own
(hence non-callable) `toString` property; an array is the join of its
elements with separator `,`. `numberToString` is the platform's
`Number::toString`. -/
def toStr (numberToString : JSNum → String) : JSValue → Option String
  | .undefined => some "undefined"
  | .null => some "null"
  | .bool b => some (if b then "true" else "false")
  | .num n => some (numberToString n)
  | .str s => some s
  | .arr items => (itemStrs numberToString items).map (String.intercalate ",")
  | .obj fields => if hasField "toString" fields then none else some "[object Object]"
/-- The strings `Array.prototype.join` joins: `undefined` and `null` elements
contribute the empty string, every other element its `ToString`. -/
def itemStrs (numberToString : JSNum → String) : List JSValue → Option (List String)
  | [] => some []
  | .undefined :: rest => (itemStrs numberToString rest).map fun l => "" :: l
  | .null :: rest => (itemStrs numberToString rest).map fun l => "" :: l
  | x :: rest =>
    match toStr numberToString x, itemStrs numberToString rest with
    | some a, some l => some (a :: l)
    | _, _ => none
end

/-! ## Strings -/

/-- Whether `pat` occurs in the character sequence, at any position. -/
def includesChars (pat : List Char) : List Char → Bool
  | [] => pat.isEmpty
  | c :: cs => pat.isPrefixOf (c :: cs) || includesChars pat cs

/-- The value of `s.includes(pat)`. -/
def includes (s pat : String) : Bool := includesChars pat.data s.data

/-- The text before and after the leftmost occurrence of `pat`, `none` when
`pat` does not occur. -/
def splitAtFirst (pat : List Char) : List Char → Option (List Char × List Char)
  | [] => if pat.isEmpty then some ([], []) else none
  | c :: cs =>
    if pat.isPrefixOf (c :: cs) then some ([], (c :: cs).drop pat.length)
    else (splitAtFirst pat cs).map fun p => (c :: p.1, p.2)

/-- The expansion `GetSubstitution` makes of a replacement text when the
search value is a string (no capture groups): `$$` is a dollar sign, `$&` the
matched text, a dollar sign followed by a backtick the text before the match,
a dollar sign followed by an apostrophe the text after it; every other
character stands for itself. -/
def getSubstitution (matched before after : List Char) : List Char → List Char
  | [] => []
  | [c] => [c]
  | c :: d :: rest =>
    if c = '$' then
      if d = '$' then '$' :: getSubstitution matched before after rest
      else if d = '&' then matched ++ getSubstitution matched before after rest
      else if d = Char.ofNat 96 then before ++ getSubstitution matched before after rest
      else if d = Char.ofNat 39 then after ++ getSubstitution matched before after rest
      else c :: getSubstitution matched before after (d :: rest)
    else c :: getSubstitution matched before after (d :: rest)

/-- The value of `s.replace(pat, rep)` for strings `pat` and `rep`: the
leftmost occurrence of `pat`, if there is one, is replaced by the expansion
of `rep`; later occurrences stay. -/
def jsReplace (s pat rep : String) : String :=
  match splitAtFirst pat.data s.data with
  | none => s
  | some (before, after) =>
    String.mk (before ++ getSubstitution pat.data before after rep.data ++ after)

/-! ## The outbound request and its outcome -/

/-- An upstream HTTP response as the client library hands it over. -/
structure Response where
  status : Nat
  statusText : String
  headers : JSValue
  data : JSValue

/-- An exception value as the `catch` clause reads it: its `message`, its
`code` (if any), whether it has a `request`, and its `response` (if any). -/
structure JSError where
  message : String
  code : Option String
  request : Bool
  response : Option Response

/-- The `config` object passed to `axios`. The fields `httpsAgent`,
`maxRedirects` and `validateStatus` are the same for every request and are
not repeated here; `params` and `data` are absent unless the handler sets
them. -/
structure Config where
  method : String
  url : JSValue
  timeout : JSValue
  headers : List (String × JSValue)
  params : Option JSValue
  data : Option JSValue

/-- What the transport does with one outbound request: an HTTP response
arrives, or the attempt fails with an error. -/
inductive Outcome where
  | received (r : Response)
  | failed (e : JSError)

/-- The platform and library behaviour the handler relies on:
`parseURL s` is whether `new URL(s)` returns, `toUpperCase` is
`String.prototype.toUpperCase`, `numberToString` is `Number::toString`, and
`adapter` is what the client library's transport does with a request.
The transport hands over final responses only (`final`): the platform's HTTP
client consumes an informational response (status 100 to 199) itself and
goes on waiting, so no such status reaches the client library as a response. -/
structure Host where
  parseURL : String → Bool
  toUpperCase : String → String
  numberToString : JSNum → String
  adapter : Config → Outcome
  final : ∀ config r, adapter config = .received r → r.status < 100 ∨ 200 ≤ r.status

/-- The function `validateStatus` of the request configuration. -/
def validateStatus (status : Nat) : Bool := decide (200 ≤ status) && decide (status < 600)

/-- The error the client library rejects with when `validateStatus` refuses
the status of a received response; it carries the request and the response. -/
def statusError (r : Response) : JSError :=
  { message := "Request failed with status code " ++ toString r.status
    code := if r.status / 100 = 4 then some "ERR_BAD_REQUEST"
      else if r.status / 100 = 5 then some "ERR_BAD_RESPONSE" else none
    request := true
    response := some r }

/-- The decision the client library takes on a received response: it
resolves with the response when the status is zero or `validateStatus`
accepts it, and otherwise rejects with an error that carries the response. -/
def settle (r : Response) : Except JSError Response :=
  if r.status = 0 ∨ validateStatus r.status = true then .ok r else .error (statusError r)

/-- The call `await axios(config)`: the returned response, or the thrown
error. -/
def axios (H : Host) (config : Config) : Except JSError Response :=
  match H.adapter config with
  | .received r => settle r
  | .failed e => .error e

/-! ## Building the request configuration -/

/-- The object `defaultHeaders`. -/
def defaultHeaders : List (String × JSValue) :=
  [ ("User-Agent", .str "Mozilla/5.0 (Macintosh; Intel Mac OS X 10_15_7) AppleWebKit/537.36 (KHTML, like Gecko) Chrome/120.0.0.0 Safari/537.36"),
    ("Accept", .str "text/html,application/xhtml+xml,application/xml;q=0.9,image/webp,image/apng,*/*;q=0.8"),
    ("Accept-Language", .str "en-US,en;q=0.9"),
    ("Accept-Encoding", .str "gzip, deflate, br"),
    ("DNT", .str "1"),
    ("Connection", .str "keep-alive"),
    ("Upgrade-Insecure-Requests", .str "1"),
    ("Sec-Fetch-Dest", .str "document"),
    ("Sec-Fetch-Mode", .str "navigate"),
    ("Sec-Fetch-Site", .str "none"),
    ("Sec-Fetch-User", .str "?1"),
    ("Cache-Control", .str "max-age=0") ]

/-- The assignment `target[key] = v` on a property list: an existing entry
keeps its place and takes the new value, a new entry goes to the end. (An
engine enumerates integer-like names first; the place of an entry plays no
role in what a name is bound to.) -/
def setField (key : String) (v : JSValue) : List (String × JSValue) → List (String × JSValue)
  | [] => [(key, v)]
  | (k, w) :: rest => if k = key then (k, v) :: rest else (k, w) :: setField key v rest

/-- The effect of `...source` inside an object literal that so far holds
`target`: every own enumerable property of `source` is assigned, in order. -/
def spread (target : List (String × JSValue)) (source : JSValue) : List (String × JSValue) :=
  (objectKeys source).foldl (fun acc key => setField key (getProp source key) acc) target

/-- The object `{ ...defaultHeaders, ...headers }`. -/
def mergeHeaders (headers : JSValue) : List (String × JSValue) :=
  spread (spread [] (.obj defaultHeaders)) headers

/-- The `TypeError` of calling `toUpperCase` on a value that has none. -/
def typeErrorToUpperCase : JSError :=
  { message := "method.toUpperCase is not a function", code := none, request := false, response := none }

/-- The `TypeError` of calling `replace` on a value that has none. -/
def typeErrorReplace : JSError :=
  { message := "finalUrl.replace is not a function", code := none, request := false, response := none }

/-- The `TypeError` of converting an object without a usable `toString` to a string. -/
def typeErrorToPrimitive : JSError :=
  { message := "Cannot convert object to primitive value", code := none, request := false, response := none }

/-- One round of the `forEach` callback:
`finalUrl = finalUrl.replace(':' + key, params[key])`. -/
def replaceStep (H : Host) (params finalUrl : JSValue) (key : String) : Except JSError JSValue :=
  match finalUrl with
  | .str s =>
    match toStr H.numberToString (getProp params key) with
    | some rep => .ok (.str (jsReplace s (":" ++ key) rep))
    | none => .error typeErrorToPrimitive
  | _ => .error typeErrorReplace

/-- The loop `keys.forEach(key => ...)` over the remaining keys. -/
def substituteKeys (H : Host) (params : JSValue) : List String → JSValue → Except JSError JSValue
  | [], finalUrl => .ok finalUrl
  | key :: keys, finalUrl =>
    match replaceStep H params finalUrl key with
    | .ok next => substituteKeys H params keys next
    | .error e => .error e

/-- The URL the configuration ends up with: the descriptor's URL after the
path-parameter loop when `params` is an object, the descriptor's URL itself
otherwise. -/
def substituteParams (H : Host) (url params : JSValue) : Except JSError JSValue :=
  if params.truthy && params.typeofObject then substituteKeys H params (objectKeys params) url
  else .ok url

/-- The statements from `const defaultHeaders` up to the body attachment:
the finished `config`, or the exception thrown on the way. -/
def buildConfig (H : Host) (url body headers query params timeout method : JSValue) :
    Except JSError Config :=
  match method with
  | .str m =>
    let config : Config :=
      { method := H.toUpperCase m, url := url, timeout := timeout
        headers := mergeHeaders headers, params := none, data := none }
    let config : Config :=
      if query.truthy && query.typeofObject then { config with params := some query } else config
    match substituteParams H url params with
    | .error e => .error e
    | .ok finalUrl =>
      let config : Config := { config with url := finalUrl }
      .ok (if ["POST", "PUT", "PATCH"].contains config.method && body.truthy
        then { config with data := some body } else config)
  | _ => .error typeErrorToUpperCase

/-- The configuration the handler builds for a request body: the fields are
read with their defaults (`headers`, `query`, `params` default to the empty
object, `timeout` to 300000, `method` to `POST`) and handed to `buildConfig`. -/
def requestConfig (H : Host) (reqBody : JSValue) : Except JSError Config :=
  buildConfig H (getProp reqBody "url") (getProp reqBody "body")
    ((getProp reqBody "headers").orElse (.obj []))
    ((getProp reqBody "query").orElse (.obj []))
    ((getProp reqBody "params").orElse (.obj []))
    ((getProp reqBody "timeout").orElse (.num (JSNum.ofNat 300000)))
    ((getProp reqBody "method").orElse (.str "POST"))

/-! ## Well-typed request bodies -/

/-- Whether a value is a string. -/
def isString : JSValue → Bool
  | .str _ => true
  | _ => false

/-- Whether a value is absent or a string. -/
def isStringOrAbsent : JSValue → Bool
  | .undefined => true
  | .str _ => true
  | _ => false

/-- Whether a value is absent or an object all of whose values are strings. -/
def isStringMapOrAbsent : JSValue → Bool
  | .undefined => true
  | .obj fields => fields.all fun kv => isString kv.2
  | _ => false

/-- The request bodies that follow the data model of the specification as far
as building the configuration depends on it: `url` is a string, `method` is
absent or a string, `params` is absent or a mapping from names to strings. -/
def wellTyped (reqBody : JSValue) : Bool :=
  isString (getProp reqBody "url") && isStringOrAbsent (getProp reqBody "method")
    && isStringMapOrAbsent (getProp reqBody "params")

/-- The string stored under `key`, the empty string when the property is not
a string. -/
def stringProp (params : JSValue) (key : String) : String :=
  match getProp params key with
  | .str v => v
  | _ => ""

/-- The path-parameter loop on a string URL and string values. -/
def substituteStrings (params : JSValue) : List String → String → String
  | [], u => u
  | key :: keys, u =>
    substituteStrings params keys (jsReplace u (":" ++ key) (stringProp params key))

/-- The `params` object the handler works with: the request's, or `{}`. -/
def paramsOf (reqBody : JSValue) : JSValue := (getProp reqBody "params").orElse (.obj [])

/-- The caller's headers the handler works with: the request's, or `{}`. -/
def headersOf (reqBody : JSValue) : JSValue := (getProp reqBody "headers").orElse (.obj [])

/-- The request method before upper-casing: the request's, or `POST`. -/
def methodOf (reqBody : JSValue) : JSValue := (getProp reqBody "method").orElse (.str "POST")

/-- What the handler passes to `res.status(status).json(body)`. -/
structure HttpResponse where
  status : Nat
  body : JSValue

/-! ## What the specification says about substitution, URLs and failures -/

/-- `ReplacesFirst pat val s t`: the text `t` is `s` with the leftmost
occurrence of `pat` replaced by `val`, or `s` itself when `pat` does not
occur in `s`. -/
def ReplacesFirst (pat val s t : List Char) : Prop :=
  (∃ pre post, s = pre ++ pat ++ post
      ∧ (∀ pre2 post2, s = pre2 ++ pat ++ post2 → pre.length ≤ pre2.length)
      ∧ t = pre ++ val ++ post)
    ∨ (¬ pat <:+: s ∧ t = s)

/-- `SubstChain params keys u w`: going through `keys` in order and
replacing, for each key, the leftmost occurrence of `:key` by the string
stored under that key leads from the URL `u` to the URL `w`. -/
inductive SubstChain (params : JSValue) : List String → String → String → Prop where
  | done (u : String) : SubstChain params [] u u
  | step (key : String) (keys : List String) (u v t w : String) :
      getProp params key = .str v →
      ReplacesFirst (":" ++ key).data v.data u.data t.data →
      SubstChain params keys t w →
      SubstChain params (key :: keys) u w

/-- The text with every occurrence of `pat` replaced by `rep`, scanning from
the left; `skip` counts the characters of an occurrence still to be passed. -/
def replaceEveryChars (pat rep : List Char) : Nat → List Char → List Char
  | _, [] => []
  | skip + 1, _ :: cs => replaceEveryChars pat rep skip cs
  | 0, c :: cs =>
    if pat.isPrefixOf (c :: cs) then rep ++ replaceEveryChars pat rep (pat.length - 1) cs
    else c :: replaceEveryChars pat rep 0 cs

/-- The substitution as the specification words it: for each key in order,
every literal occurrence of `:key` is replaced by the string stored under it. -/
def substituteEvery (params : JSValue) : List String → String → String
  | [], u => u
  | key :: keys, u =>
    substituteEvery params keys
      (String.mk (replaceEveryChars (":" ++ key).data (stringProp params key).data 0 u.data))

/-- Whether a character may follow the first letter of a URL scheme. -/
def isSchemeChar (c : Char) : Bool := c.isAlphanum || c = '+' || c = '-' || c = '.'

/-- Whether the text after the first scheme letter continues the scheme up to
`://` and a host that is not empty. -/
def schemeRest : List Char → Bool
  | [] => false
  | c :: rest =>
    if c = ':' then
      match rest with
      | a :: b :: h :: _ => a = '/' && b = '/' && h != '/'
      | _ => false
    else isSchemeChar c && schemeRest rest

/-- The valid URLs as the specification words them: an absolute URL with both
a scheme and a host. -/
def hasSchemeAndHost (s : String) : Bool :=
  match s.data with
  | [] => false
  | c :: rest => c.isAlpha && schemeRest rest

/-- The ways an outbound call ends without a response, as the specification
names them: the deadline passed (`TransportTimeout`), the request was sent
and no reply came (`TransportNoResponse`), the request could not be sent
(`TransportSetupFailure`). -/
inductive FailureCause where
  | timeout
  | noResponse
  | notSent

/-- A failed outbound call: what happened on the transport, and the error the
client library throws for it. -/
structure TransportFailure where
  cause : FailureCause
  error : JSError

/-- The response the table of the specification assigns to a failure of the
given cause, with the given detail and request timeout. -/
def specFailureResponse (cause : FailureCause) (detail : String) (timeout : JSValue) :
    HttpResponse :=
  match cause with
  | .timeout =>
    ⟨408, .obj [("success", .bool false), ("error", .str "Request timeout"),
      ("details", .str "The request took too long to complete. Try increasing the timeout value."),
      ("timeout", timeout)]⟩
  | .noResponse =>
    ⟨500, .obj [("success", .bool false),
      ("error", .str "No response received from target server"), ("details", .str detail)]⟩
  | .notSent =>
    ⟨500, .obj [("success", .bool false), ("error", .str "Request setup failed"),
      ("details", .str detail)]⟩

/-- The failure of resolving a host name: the lookup fails before anything is
sent, and the error the client library throws for it has the message and the
code of the lookup and carries the request object. -/
def dnsFailure (hostName : String) : TransportFailure :=
  { cause := .notSent
    error := ⟨"getaddrinfo ENOTFOUND " ++ hostName, some "ENOTFOUND", true, none⟩ }

/-! ## The handler -/

/-- One run of the handler: the configuration of the outbound call it made
(`none` when it made none), the response it sent (`none` when it sent none),
and the exception that left the handler (`none` when it returned normally). -/
structure Trace where
  outbound : Option Config
  response : Option HttpResponse
  fault : Option JSError

/-- The body `{ success: false, error: 'URL is required' }`. -/
def urlRequiredBody : JSValue :=
  .obj [("success", .bool false), ("error", .str "URL is required")]

/-- The body `{ success: false, error: 'Invalid URL format' }`. -/
def invalidUrlBody : JSValue :=
  .obj [("success", .bool false), ("error", .str "Invalid URL format")]

/-- The body sent for a response the client library resolved with. -/
def successBody (r : Response) : JSValue :=
  .obj [("success", .bool true), ("status", .num (JSNum.ofNat r.status)),
    ("statusText", .str r.statusText), ("headers", r.headers), ("data", r.data)]

/-- The body sent for an error that carries a response. -/
def errorResponseBody (e : JSError) (r : Response) : JSValue :=
  .obj [("success", .bool false), ("error", .str e.message),
    ("status", .num (JSNum.ofNat r.status)), ("statusText", .str r.statusText),
    ("headers", r.headers), ("data", r.data)]

/-- The object literal of the timeout branch, for a given value of the
identifier `timeout`. -/
def timeoutBody (timeout : JSValue) : JSValue :=
  .obj [("success", .bool false), ("error", .str "Request timeout"),
    ("details", .str "The request took too long to complete. Try increasing the timeout value."),
    ("timeout", timeout)]

/-- The body sent when a request was made and no response arrived. -/
def noResponseBody (details : String) : JSValue :=
  .obj [("success", .bool false), ("error", .str "No response received from target server"),
    ("details", .str details)]

/-- The body sent when the request could not be set up. -/
def setupFailedBody (details : String) : JSValue :=
  .obj [("success", .bool false), ("error", .str "Request setup failed"),
    ("details", .str details)]

/-- The `ReferenceError` of reading the identifier `timeout` inside the
`catch` clause: `const timeout` is declared in the block of the `try`
statement, so no binding of that name is in scope in the `catch` block. -/
def timeoutReferenceError : JSError :=
  { message := "timeout is not defined", code := none, request := false, response := none }

/-- The test of the timeout branch:
`error.code === 'ECONNABORTED' || error.message.includes('timeout')`. -/
def isTimeoutError (error : JSError) : Bool :=
  error.code == some "ECONNABORTED" || includes error.message "timeout"

/-- Whether the platform sends a response under this status code: it
accepts the codes from 100 to 999. -/
def validStatusCode (status : Nat) : Bool := decide (100 ≤ status) && decide (status ≤ 999)

/-- The `RangeError` that `res.status(status).json(..)` throws, before
anything is sent, when the status code is not one the platform accepts. -/
def invalidStatusError (status : Nat) : JSError :=
  { message := "Invalid status code: " ++ toString status
    code := some "ERR_HTTP_INVALID_STATUS_CODE", request := false, response := none }

/-- The `catch (error)` clause. `outbound` is the outbound call made before
the exception. In the branch of an error with a response, sending under a
status code the platform does not accept throws, so nothing is sent and the
exception leaves the handler. In the timeout branch `res.status(408)` is
called and the argument of `.json(...)` is then evaluated; its last property
reads the identifier `timeout`, which throws, so nothing is sent and the
exception leaves the handler. -/
def catchBlock (outbound : Option Config) (error : JSError) : Trace :=
  match error.response with
  | some r =>
    if validStatusCode r.status then ⟨outbound, some ⟨r.status, errorResponseBody error r⟩, none⟩
    else ⟨outbound, none, some (invalidStatusError r.status)⟩
  | none =>
    if isTimeoutError error then ⟨outbound, none, some timeoutReferenceError⟩
    else if error.request then ⟨outbound, some ⟨500, noResponseBody error.message⟩, none⟩
    else ⟨outbound, some ⟨500, setupFailedBody error.message⟩, none⟩

/-- Whether `new URL(url)` returns: the argument is converted to a string
first, and a failing conversion throws like a failing parse. -/
def urlParses (H : Host) (url : JSValue) : Bool :=
  match toStr H.numberToString url with
  | some s => H.parseURL s
  | none => false

/-- The handler of `POST /proxy`, run on the parsed request body `req.body`
(`undefined` when the request has none). Sending the success response under
a status code the platform does not accept throws inside the `try` block, and
the `catch` clause handles that exception like any other. -/
def handler (H : Host) (reqBody : JSValue) : Trace :=
  if !(getProp reqBody "url").truthy then ⟨none, some ⟨400, urlRequiredBody⟩, none⟩
  else if !urlParses H (getProp reqBody "url") then ⟨none, some ⟨400, invalidUrlBody⟩, none⟩
  else
    match requestConfig H reqBody with
    | .error e => catchBlock none e
    | .ok config =>
      match axios H config with
      | .ok response =>
        if validStatusCode response.status then
          ⟨some config, some ⟨response.status, successBody response⟩, none⟩
        else catchBlock (some config) (invalidStatusError response.status)
      | .error e => catchBlock (some config) e

/-! ## A host for the examples -/

/-- Upper-casing of the ASCII letters. -/
def asciiUpper (s : String) : String := String.mk (s.data.map Char.toUpper)

/-- Lower-casing of the ASCII letters. -/
def asciiLower (s : String) : String := String.mk (s.data.map Char.toLower)

/-- Whether a character is a C0 control character or a space. -/
def isControlOrSpace (c : Char) : Bool := decide (c.toNat ≤ 32)

/-- Whether a character is a tab or a line break. -/
def isTabOrNewline (c : Char) : Bool := c.toNat == 9 || c.toNat == 10 || c.toNat == 13

/-- The scheme characters up to the first colon and the text after it, `none`
when another character comes before a colon. -/
def splitScheme : List Char → Option (List Char × List Char)
  | [] => none
  | c :: rest =>
    if c = ':' then some ([], rest)
    else if isSchemeChar c then (splitScheme rest).map fun p => (c :: p.1, p.2)
    else none

/-- Whether a character is a slash or a backslash. -/
def isSlash (c : Char) : Bool := c = '/' || c = Char.ofNat 92

/-- Whether a character ends the authority of a URL. -/
def endsAuthority (c : Char) : Bool := isSlash c || c = '?' || c = '#'

/-- The host named by an authority: the text after the last `@`, without the
port. -/
def hostOfAuthority (authority : List Char) : List Char :=
  let hostPort := authority.foldl (fun acc c => if c = '@' then [] else acc ++ [c]) []
  if hostPort.head? = some '[' then hostPort else hostPort.takeWhile fun c => c != ':'

/-- A fragment of the platform's `URL` constructor, for the example host: the
input is trimmed, it must start with a scheme (a letter, then letters, digits,
`+`, `-` or `.`, then a colon), and with one of the schemes `http`, `https`,
`ws`, `wss` and `ftp` it must name a host that is not empty; with any other
scheme it is accepted, with or without a host. The characters of a host and
of a port, which the constructor checks as well, are not examined. -/
def constructsURL (s : String) : Bool :=
  let input :=
    ((s.data.dropWhile isControlOrSpace).reverse.dropWhile isControlOrSpace).reverse.filter
      fun c => !isTabOrNewline c
  match input with
  | [] => false
  | c :: rest =>
    c.isAlpha &&
      match splitScheme rest with
      | none => false
      | some (tail, after) =>
        if ["http", "https", "ws", "wss", "ftp"].contains
            (String.mk ((c :: tail).map Char.toLower)) then
          !(hostOfAuthority
            ((after.dropWhile isSlash).takeWhile fun d => !endsAuthority d)).isEmpty
        else true

/-- What the example transport hands over: a final response or a failure; in
place of an informational response, which the platform does not hand over, the
attempt ends with the connection closed. -/
def finalOnly : Outcome → Outcome
  | .received r =>
    if 100 ≤ r.status ∧ r.status < 200 then
      .failed ⟨"socket hang up", some "ECONNRESET", true, none⟩
    else .received r
  | .failed e => .failed e

/-- The host used in the examples: URLs are checked by `constructsURL`, ASCII
letters are upper-cased, a number prints as its mantissa in decimal (exact
for the integers with exponent 0), and the transport is the given function,
restricted to final responses. -/
def exampleHost (adapter : Config → Outcome) : Host :=
  { parseURL := constructsURL
    toUpperCase := asciiUpper
    numberToString := fun n => toString n.mantissa
    adapter := fun config => finalOnly (adapter config)
    final := by
      intro config r h
      have h2 : finalOnly (adapter config) = .received r := h
      cases ha : adapter config with
      | received r0 =>
        rw [ha] at h2
        by_cases hc : 100 ≤ r0.status ∧ r0.status < 200
        · simp [finalOnly, hc] at h2
        · simp only [finalOnly, hc, if_false] at h2
          cases h2
          omega
      | failed e =>
        rw [ha] at h2
        cases h2 }

/-- The upstream response used in the examples: the given status, with the
body `{"msg":"not found"}`. -/
def sampleResponse (status : Nat) (statusText : String) : Response :=
  { status := status, statusText := statusText
    headers := .obj [("content-type", .str "application/json")]
    data := .obj [("msg", .str "not found")] }

/-! ## Building the configuration never throws on well-typed bodies -/

theorem lookupField_isString (key : String) (fields : List (String × JSValue))
    (h : (fields.all fun kv => isString kv.2) = true) (hk : key ∈ fields.map Prod.fst) :
    isString (lookupField key fields) = true := by
  induction fields with
  | nil => simp at hk
  | cons kv rest ih =>
    obtain ⟨k, v⟩ := kv
    simp only [List.all_cons, Bool.and_eq_true] at h
    simp only [lookupField]
    by_cases hkk : k = key
    · simpa [hkk] using h.1
    · simp only [hkk, if_false]
      apply ih h.2
      simp only [List.map_cons, List.mem_cons] at hk
      rcases hk with hk | hk
      · exact absurd hk.symm hkk
      · exact hk

theorem substituteKeys_strings (H : Host) (params : JSValue) (keys : List String)
    (h : ∀ key ∈ keys, isString (getProp params key) = true) (u : String) :
    substituteKeys H params keys (.str u) = .ok (.str (substituteStrings params keys u)) := by
  induction keys generalizing u with
  | nil => rfl
  | cons key keys ih =>
    have hk := h key (List.mem_cons_self _ _)
    have hrest : ∀ k ∈ keys, isString (getProp params k) = true :=
      fun k hk => h k (List.mem_cons_of_mem _ hk)
    cases hv : getProp params key with
    | str v =>
      simp only [substituteKeys, replaceStep, hv, toStr, substituteStrings, stringProp]
      exact ih hrest _
    | _ => simp [hv, isString] at hk

theorem paramsOf_wellTyped (reqBody : JSValue)
    (h : isStringMapOrAbsent (getProp reqBody "params") = true) :
    (paramsOf reqBody).truthy = true ∧ (paramsOf reqBody).typeofObject = true
      ∧ ∀ key ∈ objectKeys (paramsOf reqBody),
          isString (getProp (paramsOf reqBody) key) = true := by
  unfold paramsOf
  cases hp : getProp reqBody "params" with
  | undefined => simp [JSValue.orElse, JSValue.truthy, JSValue.typeofObject, objectKeys, ownEntries]
  | obj fields =>
    rw [hp] at h
    refine ⟨rfl, rfl, ?_⟩
    intro key hkey
    exact lookupField_isString key fields h hkey
  | _ => simp [hp, isStringMapOrAbsent] at h

theorem methodOf_wellTyped (reqBody : JSValue)
    (h : isStringOrAbsent (getProp reqBody "method") = true) :
    ∃ m, methodOf reqBody = .str m := by
  unfold methodOf
  cases hm : getProp reqBody "method" with
  | undefined => exact ⟨"POST", rfl⟩
  | str m =>
    by_cases hemp : m.data.isEmpty = true
    · exact ⟨"POST", by simp [JSValue.orElse, JSValue.truthy, hemp]⟩
    · exact ⟨m, by simp [JSValue.orElse, JSValue.truthy, hemp]⟩
  | _ => simp [hm, isStringOrAbsent] at h

/-- On a well-typed request body the configuration is built without an
exception, and each of its fields is given by a closed expression. -/
theorem requestConfig_wellTyped (H : Host) (reqBody : JSValue) (h : wellTyped reqBody = true) :
    ∃ u m, getProp reqBody "url" = .str u ∧ methodOf reqBody = .str m ∧
      requestConfig H reqBody = .ok
        { method := H.toUpperCase m
          url := .str (substituteStrings (paramsOf reqBody) (objectKeys (paramsOf reqBody)) u)
          timeout := (getProp reqBody "timeout").orElse (.num (JSNum.ofNat 300000))
          headers := mergeHeaders (headersOf reqBody)
          params :=
            if ((getProp reqBody "query").orElse (.obj [])).truthy
                && ((getProp reqBody "query").orElse (.obj [])).typeofObject
            then some ((getProp reqBody "query").orElse (.obj [])) else none
          data :=
            if ["POST", "PUT", "PATCH"].contains (H.toUpperCase m)
                && (getProp reqBody "body").truthy
            then some (getProp reqBody "body") else none } := by
  simp only [wellTyped, Bool.and_eq_true] at h
  obtain ⟨⟨hurl, hmethod⟩, hparams⟩ := h
  obtain ⟨m, hm⟩ := methodOf_wellTyped reqBody hmethod
  obtain ⟨hpt, hpo, hpk⟩ := paramsOf_wellTyped reqBody hparams
  cases hu : getProp reqBody "url" with
  | str u =>
    refine ⟨u, m, rfl, hm, ?_⟩
    have hsub : substituteParams H (.str u) (paramsOf reqBody)
        = .ok (.str (substituteStrings (paramsOf reqBody) (objectKeys (paramsOf reqBody)) u)) := by
      unfold substituteParams
      simp only [hpt, hpo, Bool.and_self, if_true]
      exact substituteKeys_strings H _ _ hpk u
    unfold methodOf at hm
    unfold paramsOf at hsub
    unfold requestConfig buildConfig
    simp only [hu, hm, hsub, headersOf, paramsOf]
    split <;> split <;> rfl
  | _ => simp [hu, isString] at hurl

/-! ## The handler's responses -/

theorem includesChars_iff (pat s : List Char) : includesChars pat s = true ↔ pat <:+: s := by
  induction s with
  | nil => simp [includesChars]
  | cons c cs ih =>
    simp only [includesChars, Bool.or_eq_true, ih, List.infix_cons_iff,
      List.isPrefixOf_iff_prefix]

theorem isTimeoutError_iff (e : JSError) :
    isTimeoutError e = true
      ↔ (e.code = some "ECONNABORTED" ∨ "timeout".data <:+: e.message.data) := by
  simp [isTimeoutError, includes, includesChars_iff]

/-- Every run of the handler either sends one response whose body has a
boolean `success` field and raises no exception, or sends nothing and raises
an exception from inside the `catch` clause: the `ReferenceError` of the
timeout branch, or the `RangeError` of sending under the status code of an
error's response when the platform does not accept that code. -/
theorem handler_response_or_fault (H : Host) (reqBody : JSValue) :
    (∃ r b, (handler H reqBody).response = some r ∧ getProp r.body "success" = .bool b
        ∧ (handler H reqBody).fault = none)
      ∨ ((handler H reqBody).response = none
        ∧ (handler H reqBody).fault = some timeoutReferenceError)
      ∨ ((handler H reqBody).response = none
        ∧ ∃ status, validStatusCode status = false
          ∧ (handler H reqBody).fault = some (invalidStatusError status)) := by
  have hcatch : ∀ (o : Option Config) (e : JSError),
      (∃ r b, (catchBlock o e).response = some r ∧ getProp r.body "success" = .bool b
          ∧ (catchBlock o e).fault = none)
        ∨ ((catchBlock o e).response = none
          ∧ (catchBlock o e).fault = some timeoutReferenceError)
        ∨ ((catchBlock o e).response = none
          ∧ ∃ status, validStatusCode status = false
            ∧ (catchBlock o e).fault = some (invalidStatusError status)) := by
    intro o e
    unfold catchBlock
    cases hr : e.response with
    | some r =>
      by_cases hv : validStatusCode r.status = true
      · left
        exact ⟨⟨r.status, errorResponseBody e r⟩, false, by simp [hv], rfl, by simp [hv]⟩
      · right
        right
        exact ⟨by simp [hv], r.status, by simpa using hv, by simp [hv]⟩
    | none =>
      by_cases ht : isTimeoutError e = true
      · right
        left
        simp [ht]
      · left
        by_cases hq : e.request = true
        · exact ⟨⟨500, noResponseBody e.message⟩, false, by simp [ht, hq], rfl, by simp [ht, hq]⟩
        · exact ⟨⟨500, setupFailedBody e.message⟩, false, by simp [ht, hq], rfl, by simp [ht, hq]⟩
  unfold handler
  by_cases hurl : (getProp reqBody "url").truthy = true
  · by_cases hparse : urlParses H (getProp reqBody "url") = true
    · simp only [hurl, hparse, Bool.not_true, Bool.false_eq_true, if_false]
      cases hc : requestConfig H reqBody with
      | error e => exact hcatch none e
      | ok config =>
        dsimp only
        cases ha : axios H config with
        | ok r =>
          dsimp only
          by_cases hv : validStatusCode r.status = true
          · left
            exact ⟨⟨r.status, successBody r⟩, true, by simp [hv], rfl, by simp [hv]⟩
          · rw [if_neg hv]
            exact hcatch (some config) _
        | error e => exact hcatch (some config) e
    · left
      exact ⟨⟨400, invalidUrlBody⟩, false, by simp [hurl, hparse], rfl, by simp [hurl, hparse]⟩
  · left
    exact ⟨⟨400, urlRequiredBody⟩, false, by simp [hurl], rfl, by simp [hurl]⟩

/-- C6: a request whose `url` is absent or the empty string (a request
without a body included) is answered with status 400 and exactly
`{success:false, error:'URL is required'}`, whatever its other fields are, and
no outbound call is made. -/
theorem url_required (H : Host) (reqBody : JSValue)
    (h : getProp reqBody "url" = .undefined ∨ getProp reqBody "url" = .str "") :
    handler H reqBody = ⟨none, some ⟨400, urlRequiredBody⟩, none⟩ := by
  unfold handler
  rcases h with h | h <;> simp [h, JSValue.truthy]

/-- C6, at a request without a body and at a request with an empty `url`
next to other fields. -/
theorem url_required_witness :
    handler (exampleHost fun _ => .failed typeErrorReplace) .undefined
        = ⟨none, some ⟨400, urlRequiredBody⟩, none⟩
      ∧ handler (exampleHost fun _ => .failed typeErrorReplace)
          (.obj [("url", .str ""), ("method", .str "GET"), ("timeout", .num (JSNum.ofNat 50))])
        = ⟨none, some ⟨400, urlRequiredBody⟩, none⟩ :=
  ⟨url_required _ _ (Or.inl rfl), url_required _ _ (Or.inr rfl)⟩

/-- C7, as amended: a request whose `url` is not empty is answered with
status 400 and exactly `{success:false, error:'Invalid URL format'}`, without
an outbound call, when the `URL` constructor throws on it; when the
constructor returns, the request passes validation and is not answered that
way. -/
theorem invalid_url_format (H : Host) (reqBody : JSValue)
    (hurl : (getProp reqBody "url").truthy = true) :
    (urlParses H (getProp reqBody "url") = false →
        handler H reqBody
          = ⟨none,
              some ⟨400, .obj [("success", .bool false), ("error", .str "Invalid URL format")]⟩,
              none⟩)
      ∧ (urlParses H (getProp reqBody "url") = true →
        (handler H reqBody).response
          ≠ some ⟨400, .obj [("success", .bool false), ("error", .str "Invalid URL format")]⟩) := by
  constructor
  · intro hparse
    unfold handler
    simp [hurl, hparse, invalidUrlBody]
  · intro hparse
    have hcatch : ∀ (o : Option Config) (e : JSError),
        (catchBlock o e).response
          ≠ some ⟨400, .obj [("success", .bool false), ("error", .str "Invalid URL format")]⟩ := by
      intro o e
      unfold catchBlock
      cases hr : e.response with
      | some r =>
        by_cases hv : validStatusCode r.status = true
        · simp [hv, errorResponseBody]
        · simp [hv]
      | none =>
        by_cases ht : isTimeoutError e = true
        · simp [ht]
        · by_cases hq : e.request = true
          · simp [ht, hq]
          · simp [ht, hq]
    unfold handler
    simp only [hurl, hparse, Bool.not_true, Bool.false_eq_true, if_false]
    cases hc : requestConfig H reqBody with
    | error e => exact hcatch none e
    | ok config =>
      dsimp only
      cases ha : axios H config with
      | ok r =>
        dsimp only
        by_cases hv : validStatusCode r.status = true
        · simp [hv, successBody]
        · rw [if_neg hv]
          exact hcatch (some config) _
      | error e => exact hcatch (some config) e

/-- C7, as amended, at the URL `not-a-url`, which has no scheme. -/
theorem invalid_url_format_witness :
    handler (exampleHost fun _ => .failed typeErrorReplace)
        (.obj [("url", .str "not-a-url"), ("body", .str "x")])
      = ⟨none,
          some ⟨400, .obj [("success", .bool false), ("error", .str "Invalid URL format")]⟩,
          none⟩ :=
  (invalid_url_format _ _ (by decide)).1 (by decide)

/-- C7, as stated, fails for the URL `mailto:x@y.com`: it is not empty and it
is not an absolute URL with both a scheme and a host, but the `URL`
constructor returns on it, so the request passes validation, the outbound
call is made, and the answer is the 500 of the failed call, not status 400
with `Invalid URL format`. -/
theorem invalid_url_format_counterexample :
    (JSValue.str "mailto:x@y.com").truthy = true
      ∧ hasSchemeAndHost "mailto:x@y.com" = false
      ∧ handler
          (exampleHost fun _ =>
            .failed ⟨"Unsupported protocol mailto:", some "ERR_BAD_REQUEST", false, none⟩)
          (.obj [("url", .str "mailto:x@y.com")])
        = ⟨some ⟨"POST", .str "mailto:x@y.com", .num (JSNum.ofNat 300000),
              defaultHeaders, some (.obj []), none⟩,
            some ⟨500, .obj [("success", .bool false), ("error", .str "Request setup failed"),
              ("details", .str "Unsupported protocol mailto:")]⟩,
            none⟩
      ∧ (handler
          (exampleHost fun _ =>
            .failed ⟨"Unsupported protocol mailto:", some "ERR_BAD_REQUEST", false, none⟩)
          (.obj [("url", .str "mailto:x@y.com")])).response
        ≠ some ⟨400, .obj [("success", .bool false), ("error", .str "Invalid URL format")]⟩ := by
  refine ⟨by decide, by decide, rfl, ?_⟩
  intro h
  have h2 : some 500 = some 400 :=
    congrArg (fun o => o.map fun (x : HttpResponse) => x.status) h
  cases h2

/-- C2: when the request passes validation and the transport hands over a
response whose status is in 100..599, the handler sends the success envelope
`{success:true, status, statusText, headers, data}` with the fields of that
response, under the upstream status, and makes no other answer. -/
theorem relay_received_response (H : Host) (reqBody : JSValue) (config : Config) (r : Response)
    (hurl : (getProp reqBody "url").truthy = true)
    (hparse : urlParses H (getProp reqBody "url") = true)
    (hconfig : requestConfig H reqBody = .ok config)
    (hreceived : H.adapter config = .received r)
    (hlow : 100 ≤ r.status) (hhigh : r.status ≤ 599) :
    handler H reqBody
      = ⟨some config,
          some ⟨r.status, .obj [("success", .bool true), ("status", .num (JSNum.ofNat r.status)),
            ("statusText", .str r.statusText), ("headers", r.headers), ("data", r.data)]⟩,
          none⟩ := by
  have h200 : 200 ≤ r.status := by
    rcases H.final config r hreceived with h | h
    · omega
    · exact h
  have h600 : r.status < 600 := by omega
  have hv : validStatusCode r.status = true := by
    simp only [validStatusCode, Bool.and_eq_true, decide_eq_true_eq]
    omega
  unfold handler
  simp [hurl, hparse, hconfig, axios, hreceived, settle, validateStatus, h200, h600, hv,
    successBody]

/-- C2, at an upstream answer `404` with body `{"msg":"not found"}`. -/
theorem relay_received_response_witness :
    handler (exampleHost fun _ => .received (sampleResponse 404 "Not Found"))
        (.obj [("url", .str "https://api.test/users/7"), ("method", .str "get")])
      = ⟨some ⟨"GET", .str "https://api.test/users/7", .num (JSNum.ofNat 300000),
            defaultHeaders, some (.obj []), none⟩,
          some ⟨404, .obj [("success", .bool true), ("status", .num (JSNum.ofNat 404)),
            ("statusText", .str "Not Found"),
            ("headers", .obj [("content-type", .str "application/json")]),
            ("data", .obj [("msg", .str "not found")])]⟩,
          none⟩ :=
  relay_received_response (exampleHost fun _ => .received (sampleResponse 404 "Not Found"))
    (.obj [("url", .str "https://api.test/users/7"), ("method", .str "get")])
    ⟨"GET", .str "https://api.test/users/7", .num (JSNum.ofNat 300000),
      defaultHeaders, some (.obj []), none⟩
    (sampleResponse 404 "Not Found") (by decide) (by decide) rfl rfl (by decide) (by decide)

/-- A received status from 600 to 999 is refused by `validateStatus`, and the
handler relays it under the same status with the `success:false` envelope of
the error that carries the response. -/
theorem relay_refused_status (H : Host) (reqBody : JSValue) (config : Config) (r : Response)
    (hurl : (getProp reqBody "url").truthy = true)
    (hparse : urlParses H (getProp reqBody "url") = true)
    (hconfig : requestConfig H reqBody = .ok config)
    (hreceived : H.adapter config = .received r)
    (hlow : 600 ≤ r.status) (hhigh : r.status ≤ 999) :
    handler H reqBody
      = ⟨some config,
          some ⟨r.status, .obj [("success", .bool false),
            ("error", .str ("Request failed with status code " ++ toString r.status)),
            ("status", .num (JSNum.ofNat r.status)),
            ("statusText", .str r.statusText), ("headers", r.headers), ("data", r.data)]⟩,
          none⟩ := by
  have h0 : r.status ≠ 0 := by omega
  have hnot : ¬ r.status < 600 := by omega
  have hv : validStatusCode r.status = true := by
    simp only [validStatusCode, Bool.and_eq_true, decide_eq_true_eq]
    omega
  unfold handler
  simp [hurl, hparse, hconfig, axios, hreceived, settle, validateStatus, h0, hnot, hv,
    catchBlock, statusError, errorResponseBody]

/-- C10, as amended: when the request passes validation and the outbound call
fails with an error that carries no response, then (1) if the error's code
is not `ECONNABORTED` and its message does not contain `timeout`, the
handler answers with status 500 and `{success:false, error, details}`, where
`details` is the error's message and `error` is
`No response received from target server` when the error carries a request
object and `Request setup failed` when it carries none; (2) if the code is
`ECONNABORTED` or the message contains `timeout`, the handler sends neither
of these two envelopes; and the three envelopes differ from each other
whatever their details are. -/
theorem transport_failure_500 (H : Host) (reqBody : JSValue) (config : Config) (e : JSError)
    (hurl : (getProp reqBody "url").truthy = true)
    (hparse : urlParses H (getProp reqBody "url") = true)
    (hconfig : requestConfig H reqBody = .ok config)
    (hfailed : H.adapter config = .failed e)
    (hresp : e.response = none) :
    (e.code ≠ some "ECONNABORTED" → ¬ "timeout".data <:+: e.message.data →
        e.request = true →
        handler H reqBody
          = ⟨some config,
              some ⟨500, .obj [("success", .bool false),
                ("error", .str "No response received from target server"),
                ("details", .str e.message)]⟩,
              none⟩)
      ∧ (e.code ≠ some "ECONNABORTED" → ¬ "timeout".data <:+: e.message.data →
        e.request = false →
        handler H reqBody
          = ⟨some config,
              some ⟨500, .obj [("success", .bool false), ("error", .str "Request setup failed"),
                ("details", .str e.message)]⟩,
              none⟩)
      ∧ (e.code = some "ECONNABORTED" ∨ "timeout".data <:+: e.message.data →
        ∀ d : String,
          (handler H reqBody).response
              ≠ some ⟨500, .obj [("success", .bool false),
                  ("error", .str "No response received from target server"),
                  ("details", .str d)]⟩
            ∧ (handler H reqBody).response
              ≠ some ⟨500, .obj [("success", .bool false),
                  ("error", .str "Request setup failed"), ("details", .str d)]⟩)
      ∧ (∀ d d2 : String, ∀ t : JSValue,
          JSValue.obj [("success", .bool false),
              ("error", .str "No response received from target server"), ("details", .str d)]
            ≠ .obj [("success", .bool false), ("error", .str "Request setup failed"),
              ("details", .str d2)]
          ∧ JSValue.obj [("success", .bool false),
              ("error", .str "No response received from target server"), ("details", .str d)]
            ≠ .obj [("success", .bool false), ("error", .str "Request timeout"),
              ("details", .str "The request took too long to complete. Try increasing the timeout value."),
              ("timeout", t)]
          ∧ JSValue.obj [("success", .bool false), ("error", .str "Request setup failed"),
              ("details", .str d)]
            ≠ .obj [("success", .bool false), ("error", .str "Request timeout"),
              ("details", .str "The request took too long to complete. Try increasing the timeout value."),
              ("timeout", t)]) := by
  refine ⟨?_, ?_, ?_, ?_⟩
  · intro hcode hmsg hr
    have ht : isTimeoutError e = false := by
      rw [← Bool.not_eq_true, isTimeoutError_iff]
      rintro (h | h)
      · exact hcode h
      · exact hmsg h
    unfold handler
    simp [hurl, hparse, hconfig, axios, hfailed, catchBlock, hresp, ht, hr, noResponseBody]
  · intro hcode hmsg hr
    have ht : isTimeoutError e = false := by
      rw [← Bool.not_eq_true, isTimeoutError_iff]
      rintro (h | h)
      · exact hcode h
      · exact hmsg h
    unfold handler
    simp [hurl, hparse, hconfig, axios, hfailed, catchBlock, hresp, ht, hr, setupFailedBody]
  · intro h d
    have ht : isTimeoutError e = true := (isTimeoutError_iff e).mpr h
    unfold handler
    simp [hurl, hparse, hconfig, axios, hfailed, catchBlock, hresp, ht]
  · intro d d2 t
    refine ⟨?_, ?_, ?_⟩ <;> simp

/-- C10, as amended, at a connection reset (the error carries a request
object) and at an unsupported protocol (it carries none). -/
theorem transport_failure_500_witness :
    handler (exampleHost fun _ => .failed ⟨"socket hang up", some "ECONNRESET", true, none⟩)
        (.obj [("url", .str "https://api.test/users/7")])
      = ⟨some ⟨"POST", .str "https://api.test/users/7", .num (JSNum.ofNat 300000),
            defaultHeaders, some (.obj []), none⟩,
          some ⟨500, .obj [("success", .bool false),
            ("error", .str "No response received from target server"),
            ("details", .str "socket hang up")]⟩, none⟩
      ∧ handler (exampleHost fun _ => .failed ⟨"Unsupported protocol ftp:", some "ERR_BAD_REQUEST", false, none⟩)
        (.obj [("url", .str "ftp://api.test/users/7")])
      = ⟨some ⟨"POST", .str "ftp://api.test/users/7", .num (JSNum.ofNat 300000),
            defaultHeaders, some (.obj []), none⟩,
          some ⟨500, .obj [("success", .bool false),
            ("error", .str "Request setup failed"),
            ("details", .str "Unsupported protocol ftp:")]⟩, none⟩ :=
  ⟨(transport_failure_500
      (exampleHost fun _ => .failed ⟨"socket hang up", some "ECONNRESET", true, none⟩)
      (.obj [("url", .str "https://api.test/users/7")])
      ⟨"POST", .str "https://api.test/users/7", .num (JSNum.ofNat 300000),
        defaultHeaders, some (.obj []), none⟩
      ⟨"socket hang up", some "ECONNRESET", true, none⟩
      (by decide) (by decide) rfl rfl rfl).1 (by decide) (by decide) rfl,
    (transport_failure_500
      (exampleHost fun _ => .failed ⟨"Unsupported protocol ftp:", some "ERR_BAD_REQUEST", false, none⟩)
      (.obj [("url", .str "ftp://api.test/users/7")])
      ⟨"POST", .str "ftp://api.test/users/7", .num (JSNum.ofNat 300000),
        defaultHeaders, some (.obj []), none⟩
      ⟨"Unsupported protocol ftp:", some "ERR_BAD_REQUEST", false, none⟩
      (by decide) (by decide) rfl rfl rfl).2.1 (by decide) (by decide) rfl⟩

/-- C10, as stated, fails for a host name that does not resolve: the request
could not be sent and the failure is not a timeout, so the specification
assigns it status 500 with `Request setup failed`; the error carries the
request object, and the handler answers with
`No response received from target server`. When the name of the host contains
`timeout`, the message of the error contains it too, the handler takes the
failure for a timeout, and it sends no 500 envelope. -/
theorem transport_failure_counterexample :
    (dnsFailure "nosuch.invalid").cause = .notSent
      ∧ (handler (exampleHost fun _ => .failed (dnsFailure "nosuch.invalid").error)
          (.obj [("url", .str "https://nosuch.invalid/")])).response
        = some ⟨500, .obj [("success", .bool false),
            ("error", .str "No response received from target server"),
            ("details", .str "getaddrinfo ENOTFOUND nosuch.invalid")]⟩
      ∧ specFailureResponse (dnsFailure "nosuch.invalid").cause
          (dnsFailure "nosuch.invalid").error.message (.num (JSNum.ofNat 300000))
        = ⟨500, .obj [("success", .bool false), ("error", .str "Request setup failed"),
            ("details", .str "getaddrinfo ENOTFOUND nosuch.invalid")]⟩
      ∧ (handler (exampleHost fun _ => .failed (dnsFailure "nosuch.invalid").error)
          (.obj [("url", .str "https://nosuch.invalid/")])).response
        ≠ some (specFailureResponse (dnsFailure "nosuch.invalid").cause
            (dnsFailure "nosuch.invalid").error.message (.num (JSNum.ofNat 300000)))
      ∧ (dnsFailure "timeout.invalid").cause = .notSent
      ∧ (handler (exampleHost fun _ => .failed (dnsFailure "timeout.invalid").error)
          (.obj [("url", .str "https://timeout.invalid/")])).response
        ≠ some (specFailureResponse (dnsFailure "timeout.invalid").cause
            (dnsFailure "timeout.invalid").error.message (.num (JSNum.ofNat 300000))) := by
  refine ⟨rfl, rfl, rfl, ?_, rfl, ?_⟩
  · intro h
    have h2 : some (JSValue.str "No response received from target server")
        = some (JSValue.str "Request setup failed") :=
      congrArg (fun o => o.map fun (x : HttpResponse) => getProp x.body "error") h
    have h3 : "No response received from target server" = "Request setup failed" :=
      JSValue.str.inj (Option.some.inj h2)
    exact absurd h3 (by decide)
  · intro h
    have h2 : (none : Option Nat) = some 500 :=
      congrArg (fun o => o.map fun (x : HttpResponse) => x.status) h
    cases h2

/-- C1: at the request `{url:'https://example.com', timeout:50}` whose
outbound call fails with the timeout error of the client library (code
`ECONNABORTED`, no response), the request passes validation and the outbound
call is made with timeout 50, but the handler sends no response at all,
neither status 408 nor the timeout envelope: reading `timeout` in the `catch`
clause throws, and that exception leaves the handler. -/
theorem timeout_branch_sends_nothing :
    isTimeoutError ⟨"timeout of 50ms exceeded", some "ECONNABORTED", true, none⟩ = true
      ∧ handler
          (exampleHost fun _ =>
            .failed ⟨"timeout of 50ms exceeded", some "ECONNABORTED", true, none⟩)
          (.obj [("url", .str "https://example.com"), ("timeout", .num (JSNum.ofNat 50))])
        = ⟨some ⟨"POST", .str "https://example.com", .num (JSNum.ofNat 50),
              defaultHeaders, some (.obj []), none⟩,
            none, some timeoutReferenceError⟩
      ∧ (handler
          (exampleHost fun _ =>
            .failed ⟨"timeout of 50ms exceeded", some "ECONNABORTED", true, none⟩)
          (.obj [("url", .str "https://example.com"), ("timeout", .num (JSNum.ofNat 50))])).response
        ≠ some ⟨408, timeoutBody (.num (JSNum.ofNat 50))⟩ := by
  refine ⟨by decide, rfl, ?_⟩
  intro h
  have h2 : (none : Option Nat) = some 408 :=
    congrArg (fun o => o.map fun (x : HttpResponse) => x.status) h
  cases h2

/-- C3: at a `GET` request whose outbound call fails with an error whose
message contains `timeout` (no code, no response), the handler makes the
outbound call and then sends no response: the exception thrown inside the
`catch` clause leaves the handler. -/
theorem fault_escapes_on_timeout :
    (handler
        (exampleHost fun _ => .failed ⟨"timeout of 300000ms exceeded", none, true, none⟩)
        (.obj [("url", .str "https://api.test/slow"), ("method", .str "GET")])).response = none
      ∧ (handler
        (exampleHost fun _ => .failed ⟨"timeout of 300000ms exceeded", none, true, none⟩)
        (.obj [("url", .str "https://api.test/slow"), ("method", .str "GET")])).fault
        = some timeoutReferenceError
      ∧ (handler
        (exampleHost fun _ => .failed ⟨"timeout of 300000ms exceeded", none, true, none⟩)
        (.obj [("url", .str "https://api.test/slow"), ("method", .str "GET")])).outbound
        = some ⟨"GET", .str "https://api.test/slow", .num (JSNum.ofNat 300000),
            defaultHeaders, some (.obj []), none⟩ :=
  ⟨rfl, rfl, rfl⟩

/-! ## The outbound configuration -/

/-- C9, as amended: on a well-typed request body the configuration is built,
and its timeout is the request's `timeout` whenever that value is truthy (so
every positive integer is passed through unchanged, and so is every other
non-zero number and non-empty string) and 300000 whenever it is falsy
(absent, `null`, `false`, zero or the empty string). -/
theorem outbound_timeout (H : Host) (reqBody : JSValue) (h : wellTyped reqBody = true) :
    ∃ config, requestConfig H reqBody = .ok config
      ∧ ((getProp reqBody "timeout").truthy = true → config.timeout = getProp reqBody "timeout")
      ∧ ((getProp reqBody "timeout").truthy = false →
          config.timeout = .num (JSNum.ofNat 300000))
      ∧ (∀ n : JSNum, getProp reqBody "timeout" = .num n → n.isPositiveInteger = true →
          config.timeout = .num n)
      ∧ (getProp reqBody "timeout" = .undefined → config.timeout = .num (JSNum.ofNat 300000)) := by
  obtain ⟨u, m, _, _, hc⟩ := requestConfig_wellTyped H reqBody h
  refine ⟨_, hc, ?_, ?_, ?_, ?_⟩
  · intro ht
    simp [JSValue.orElse, ht]
  · intro ht
    simp [JSValue.orElse, ht]
  · intro n hn hpos
    have hm : n.mantissa ≠ 0 := by
      unfold JSNum.isPositiveInteger at hpos
      simp only [Bool.and_eq_true, decide_eq_true_eq] at hpos
      omega
    simp [JSValue.orElse, hn, JSValue.truthy, hm]
  · intro hn
    simp [JSValue.orElse, hn, JSValue.truthy]

/-- C9, as amended, at the timeouts 50 and 0. -/
theorem outbound_timeout_witness :
    (∃ config,
        requestConfig (exampleHost fun _ => .failed typeErrorReplace)
          (.obj [("url", .str "https://example.com"), ("timeout", .num (JSNum.ofNat 50))])
          = .ok config
        ∧ config.timeout = .num (JSNum.ofNat 50))
      ∧ (∃ config,
        requestConfig (exampleHost fun _ => .failed typeErrorReplace)
          (.obj [("url", .str "https://example.com"), ("timeout", .num (JSNum.ofNat 0))])
          = .ok config
        ∧ config.timeout = .num (JSNum.ofNat 300000)) :=
  ⟨(outbound_timeout (exampleHost fun _ => .failed typeErrorReplace)
      (.obj [("url", .str "https://example.com"), ("timeout", .num (JSNum.ofNat 50))])
      (by decide)).imp fun _ hc => ⟨hc.1, hc.2.1 (by decide)⟩,
    (outbound_timeout (exampleHost fun _ => .failed typeErrorReplace)
      (.obj [("url", .str "https://example.com"), ("timeout", .num (JSNum.ofNat 0))])
      (by decide)).imp fun _ hc => ⟨hc.1, hc.2.2.1 (by decide)⟩⟩

/-- C9, as stated, fails for a negative timeout, for a non-numeric one and
for a non-integer one: none of `-5`, `'soon'` and `1.5` is a positive
integer, and the outbound timeout is that value, not 300000. -/
theorem outbound_timeout_counterexample :
    JSNum.isPositiveInteger (JSNum.ofInt (-5)) = false
      ∧ requestConfig (exampleHost fun _ => .failed typeErrorReplace)
          (.obj [("url", .str "https://example.com"), ("timeout", .num (JSNum.ofInt (-5)))])
        = .ok ⟨"POST", .str "https://example.com", .num (JSNum.ofInt (-5)),
            defaultHeaders, some (.obj []), none⟩
      ∧ JSValue.num (JSNum.ofInt (-5)) ≠ JSValue.num (JSNum.ofNat 300000)
      ∧ requestConfig (exampleHost fun _ => .failed typeErrorReplace)
          (.obj [("url", .str "https://example.com"), ("timeout", .str "soon")])
        = .ok ⟨"POST", .str "https://example.com", .str "soon",
            defaultHeaders, some (.obj []), none⟩
      ∧ JSValue.str "soon" ≠ JSValue.num (JSNum.ofNat 300000)
      ∧ JSNum.isPositiveInteger ⟨3, -1⟩ = false
      ∧ requestConfig (exampleHost fun _ => .failed typeErrorReplace)
          (.obj [("url", .str "https://example.com"), ("timeout", .num ⟨3, -1⟩)])
        = .ok ⟨"POST", .str "https://example.com", .num ⟨3, -1⟩,
            defaultHeaders, some (.obj []), none⟩
      ∧ JSValue.num ⟨3, -1⟩ ≠ JSValue.num (JSNum.ofNat 300000) := by
  refine ⟨by decide, rfl, ?_, rfl, ?_, by decide, rfl, ?_⟩
  · intro h
    cases h
  · intro h
    cases h
  · intro h
    cases h

/-- C8, as amended: on a well-typed request body the configuration is built,
its method is the upper-cased request method (`POST` when the request names
none), and it carries a body exactly when that method is `POST`, `PUT` or
`PATCH` and the request's `body` is truthy; the body carried is then the
request's `body`, unchanged. -/
theorem body_attachment (H : Host) (reqBody : JSValue) (h : wellTyped reqBody = true) :
    ∃ config m, requestConfig H reqBody = .ok config
      ∧ methodOf reqBody = .str m
      ∧ config.method = H.toUpperCase m
      ∧ ∀ b : JSValue, config.data = some b ↔
          ((config.method = "POST" ∨ config.method = "PUT" ∨ config.method = "PATCH")
            ∧ (getProp reqBody "body").truthy = true ∧ b = getProp reqBody "body") := by
  obtain ⟨u, m, _, hm, hc⟩ := requestConfig_wellTyped H reqBody h
  refine ⟨_, m, hc, hm, rfl, ?_⟩
  intro b
  by_cases hcond : (["POST", "PUT", "PATCH"].contains (H.toUpperCase m)
      && (getProp reqBody "body").truthy) = true
  · simp only [hcond, if_true, Option.some.injEq]
    simp only [Bool.and_eq_true, List.contains_iff_exists_mem_beq] at hcond
    obtain ⟨⟨x, hx, hxe⟩, hb⟩ := hcond
    have hxe2 : H.toUpperCase m = x := by simpa using hxe
    constructor
    · intro hbb
      refine ⟨?_, hb, hbb.symm⟩
      simpa [hxe2, eq_comm] using hx
    · rintro ⟨_, _, hbb⟩
      exact hbb.symm
  · simp only [hcond]
    constructor
    · intro hbb
      simp at hbb
    · rintro ⟨hmeth, hb, _⟩
      exfalso
      apply hcond
      simp only [Bool.and_eq_true, hb, and_true]
      rcases hmeth with hmeth | hmeth | hmeth <;> simp [hmeth]

/-- C8, as amended, at a `post` request with a body (carried) and a `get`
request with a body (not carried). -/
theorem body_attachment_witness :
    (∃ config,
        requestConfig (exampleHost fun _ => .failed typeErrorReplace)
          (.obj [("url", .str "https://example.com"), ("method", .str "post"),
            ("body", .obj [("a", .num (JSNum.ofNat 1))])]) = .ok config
        ∧ config.data = some (.obj [("a", .num (JSNum.ofNat 1))]))
      ∧ (∃ config,
        requestConfig (exampleHost fun _ => .failed typeErrorReplace)
          (.obj [("url", .str "https://example.com"), ("method", .str "get"),
            ("body", .obj [("a", .num (JSNum.ofNat 1))])]) = .ok config
        ∧ config.data = none) := by
  constructor
  · obtain ⟨config, m, hc, hm, hmeth, hdata⟩ :=
      body_attachment (exampleHost fun _ => .failed typeErrorReplace)
        (.obj [("url", .str "https://example.com"), ("method", .str "post"),
          ("body", .obj [("a", .num (JSNum.ofNat 1))])]) (by decide)
    refine ⟨config, hc, (hdata _).2 ⟨?_, rfl, rfl⟩⟩
    have hm2 : m = "post" := by
      have : JSValue.str "post" = JSValue.str m := hm
      cases this
      rfl
    left
    rw [hmeth, hm2]
    decide
  · exact ⟨_, rfl, rfl⟩

/-- C8, as stated, fails for a `POST` request whose supplied body is `false`
or the empty string: the body is supplied, the method is `POST`, and the
configuration carries no body. -/
theorem body_attachment_counterexample :
    getProp (.obj [("url", .str "https://example.com"), ("method", .str "POST"),
        ("body", .bool false)]) "body" = .bool false
      ∧ requestConfig (exampleHost fun _ => .failed typeErrorReplace)
          (.obj [("url", .str "https://example.com"), ("method", .str "POST"),
            ("body", .bool false)])
        = .ok ⟨"POST", .str "https://example.com", .num (JSNum.ofNat 300000),
            defaultHeaders, some (.obj []), none⟩
      ∧ requestConfig (exampleHost fun _ => .failed typeErrorReplace)
          (.obj [("url", .str "https://example.com"), ("method", .str "POST"),
            ("body", .str "")])
        = .ok ⟨"POST", .str "https://example.com", .num (JSNum.ofNat 300000),
            defaultHeaders, some (.obj []), none⟩ :=
  ⟨rfl, rfl, rfl⟩

/-! ### Header merge -/

theorem lookupField_setField_self (key : String) (v : JSValue) (l : List (String × JSValue)) :
    lookupField key (setField key v l) = v := by
  induction l with
  | nil => simp [setField, lookupField]
  | cons kv rest ih =>
    obtain ⟨k, w⟩ := kv
    by_cases hk : k = key
    · simp [setField, lookupField, hk]
    · simp [setField, lookupField, hk, ih]

theorem lookupField_setField_ne (key other : String) (v : JSValue) (l : List (String × JSValue))
    (hne : key ≠ other) : lookupField other (setField key v l) = lookupField other l := by
  induction l with
  | nil => simp [setField, lookupField, hne]
  | cons kv rest ih =>
    obtain ⟨k, w⟩ := kv
    by_cases hk : k = key
    · subst hk
      simp [setField, lookupField, hne]
    · by_cases hko : k = other
      · subst hko
        simp [setField, lookupField, hk]
      · simp [setField, lookupField, hk, hko, ih]

theorem mem_keys_setField (key other : String) (v : JSValue) (l : List (String × JSValue)) :
    other ∈ (setField key v l).map Prod.fst ↔ other = key ∨ other ∈ l.map Prod.fst := by
  induction l with
  | nil => simp [setField]
  | cons kv rest ih =>
    obtain ⟨k, w⟩ := kv
    by_cases hk : k = key
    · subst hk
      simp [setField]
    · simp only [setField, hk, if_false, List.map_cons, List.mem_cons, ih]
      tauto

theorem nodup_keys_setField (key : String) (v : JSValue) (l : List (String × JSValue))
    (h : (l.map Prod.fst).Nodup) : ((setField key v l).map Prod.fst).Nodup := by
  induction l with
  | nil => simp [setField]
  | cons kv rest ih =>
    obtain ⟨k, w⟩ := kv
    simp only [List.map_cons, List.nodup_cons] at h
    by_cases hk : k = key
    · simp only [setField, hk, if_true, List.map_cons, List.nodup_cons]
      exact ⟨hk ▸ h.1, h.2⟩
    · simp only [setField, hk, if_false, List.map_cons, List.nodup_cons]
      refine ⟨?_, ih h.2⟩
      rw [mem_keys_setField]
      rintro (hkk | hmem)
      · exact hk hkk
      · exact h.1 hmem

theorem lookupField_assign (g : String → JSValue) (keys : List String)
    (target : List (String × JSValue)) (other : String) :
    lookupField other (keys.foldl (fun acc key => setField key (g key) acc) target)
      = if other ∈ keys then g other else lookupField other target := by
  induction keys generalizing target with
  | nil => simp
  | cons key keys ih =>
    simp only [List.foldl_cons, ih, List.mem_cons]
    by_cases hmem : other ∈ keys
    · simp [hmem]
    · by_cases hk : other = key
      · subst hk
        simp [hmem, lookupField_setField_self]
      · simp [hmem, hk, lookupField_setField_ne _ _ _ _ (Ne.symm hk)]

theorem mem_keys_assign (g : String → JSValue) (keys : List String)
    (target : List (String × JSValue)) (other : String) :
    other ∈ (keys.foldl (fun acc key => setField key (g key) acc) target).map Prod.fst
      ↔ other ∈ keys ∨ other ∈ target.map Prod.fst := by
  induction keys generalizing target with
  | nil => simp
  | cons key keys ih =>
    simp only [List.foldl_cons, ih, mem_keys_setField, List.mem_cons]
    tauto

theorem nodup_keys_assign (g : String → JSValue) (keys : List String)
    (target : List (String × JSValue)) (h : (target.map Prod.fst).Nodup) :
    ((keys.foldl (fun acc key => setField key (g key) acc) target).map Prod.fst).Nodup := by
  induction keys generalizing target with
  | nil => simpa using h
  | cons key keys ih =>
    simp only [List.foldl_cons]
    exact ih _ (nodup_keys_setField _ _ _ h)

theorem lookupField_of_mem (l : List (String × JSValue)) (h : (l.map Prod.fst).Nodup)
    (key : String) (v : JSValue) (hmem : (key, v) ∈ l) : lookupField key l = v := by
  induction l with
  | nil => simp at hmem
  | cons kv rest ih =>
    obtain ⟨k, w⟩ := kv
    simp only [List.map_cons, List.nodup_cons] at h
    simp only [List.mem_cons, Prod.mk.injEq] at hmem
    rcases hmem with ⟨hk, hv⟩ | hmem
    · simp [lookupField, hk, hv]
    · have hne : k ≠ key := by
        rintro rfl
        exact h.1 (List.mem_map_of_mem Prod.fst hmem)
      simp [lookupField, hne, ih h.2 hmem]

theorem spread_defaultHeaders : spread [] (.obj defaultHeaders) = defaultHeaders := by rfl

theorem nodup_defaultHeaders : (defaultHeaders.map Prod.fst).Nodup := by decide

theorem mergeHeaders_eq (headers : JSValue) :
    mergeHeaders headers
      = (objectKeys headers).foldl (fun acc key => setField key (getProp headers key) acc)
          defaultHeaders := by
  rw [mergeHeaders, spread_defaultHeaders]
  rfl

/-- C4, as amended: on a well-typed request body the configuration is built,
and its header map (1) carries, for each caller key, the caller's value,
(2) keeps every default header whose name is not exactly a caller key, with
its default value, (3) has exactly one entry per name, so no default value
stays under a name that is exactly a caller key, and (4) has no names other
than the default names and the caller keys. Names are compared exactly
(case-sensitively). -/
theorem header_merge (H : Host) (reqBody : JSValue) (h : wellTyped reqBody = true) :
    ∃ config, requestConfig H reqBody = .ok config
      ∧ (∀ key ∈ objectKeys (headersOf reqBody),
          lookupField key config.headers = getProp (headersOf reqBody) key)
      ∧ (∀ key v, (key, v) ∈ defaultHeaders → key ∉ objectKeys (headersOf reqBody) →
          lookupField key config.headers = v)
      ∧ (config.headers.map Prod.fst).Nodup
      ∧ (∀ key ∈ config.headers.map Prod.fst,
          key ∈ defaultHeaders.map Prod.fst ∨ key ∈ objectKeys (headersOf reqBody)) := by
  obtain ⟨u, m, _, _, hc⟩ := requestConfig_wellTyped H reqBody h
  refine ⟨_, hc, ?_, ?_, ?_, ?_⟩ <;> simp only [mergeHeaders_eq]
  · intro key hkey
    rw [lookupField_assign (fun key => getProp (headersOf reqBody) key)]
    simp [hkey]
  · intro key v hmem hkey
    rw [lookupField_assign (fun key => getProp (headersOf reqBody) key)]
    simp only [hkey, if_false]
    exact lookupField_of_mem _ nodup_defaultHeaders key v hmem
  · exact nodup_keys_assign (fun key => getProp (headersOf reqBody) key) _ _
      nodup_defaultHeaders
  · intro key hkey
    rw [mem_keys_assign (fun key => getProp (headersOf reqBody) key)] at hkey
    exact hkey.symm

/-- C4, as amended, at the caller headers `User-Agent: C` and `X-Trace: 1`. -/
theorem header_merge_witness :
    ∃ config,
      requestConfig (exampleHost fun _ => .failed typeErrorReplace)
        (.obj [("url", .str "https://example.com"),
          ("headers", .obj [("User-Agent", .str "C"), ("X-Trace", .str "1")])]) = .ok config
      ∧ lookupField "User-Agent" config.headers = .str "C"
      ∧ lookupField "X-Trace" config.headers = .str "1"
      ∧ lookupField "DNT" config.headers = .str "1"
      ∧ (config.headers.map Prod.fst).Nodup :=
  (header_merge (exampleHost fun _ => .failed typeErrorReplace)
    (.obj [("url", .str "https://example.com"),
      ("headers", .obj [("User-Agent", .str "C"), ("X-Trace", .str "1")])])
    (by decide)).imp fun _ hc =>
      ⟨hc.1, hc.2.1 "User-Agent" (by decide), hc.2.1 "X-Trace" (by decide),
        hc.2.2.1 "DNT" (.str "1") (by simp [defaultHeaders]) (by decide), hc.2.2.2.1⟩

/-- C4, as stated, fails for the caller header `user-agent: C`: the caller key
`user-agent` equals the default name `User-Agent` up to case, and the
outbound header map still holds the default `User-Agent` entry with its
default value, next to the caller's entry. -/
theorem header_merge_counterexample :
    objectKeys (headersOf (.obj [("url", .str "https://example.com"),
        ("headers", .obj [("user-agent", .str "C")])])) = ["user-agent"]
      ∧ asciiLower "User-Agent" = asciiLower "user-agent"
      ∧ requestConfig (exampleHost fun _ => .failed typeErrorReplace)
          (.obj [("url", .str "https://example.com"),
            ("headers", .obj [("user-agent", .str "C")])])
        = .ok ⟨"POST", .str "https://example.com", .num (JSNum.ofNat 300000),
            defaultHeaders ++ [("user-agent", .str "C")], some (.obj []), none⟩
      ∧ lookupField "User-Agent" (defaultHeaders ++ [("user-agent", .str "C")])
        = .str "Mozilla/5.0 (Macintosh; Intel Mac OS X 10_15_7) AppleWebKit/537.36 (KHTML, like Gecko) Chrome/120.0.0.0 Safari/537.36"
      ∧ ("User-Agent", JSValue.str "Mozilla/5.0 (Macintosh; Intel Mac OS X 10_15_7) AppleWebKit/537.36 (KHTML, like Gecko) Chrome/120.0.0.0 Safari/537.36")
          ∈ defaultHeaders :=
  ⟨rfl, by decide, rfl, rfl, List.mem_cons_self _ _⟩

/-! ### Path-parameter substitution -/

theorem getSubstitution_of_no_dollar (matched before after rep : List Char)
    (h : '$' ∉ rep) : getSubstitution matched before after rep = rep := by
  induction rep with
  | nil => rfl
  | cons c tl ih =>
    cases tl with
    | nil => rfl
    | cons d rest =>
      have hc : c ≠ '$' := fun hc => h (hc ▸ List.mem_cons_self _ _)
      have htl : '$' ∉ d :: rest := fun hm => h (List.mem_cons_of_mem _ hm)
      simp only [getSubstitution, hc, if_false, ih htl]

theorem splitAtFirst_some (pat : List Char) (s pre post : List Char)
    (h : splitAtFirst pat s = some (pre, post)) :
    s = pre ++ pat ++ post
      ∧ ∀ pre2 post2, s = pre2 ++ pat ++ post2 → pre.length ≤ pre2.length := by
  induction s generalizing pre post with
  | nil =>
    simp only [splitAtFirst] at h
    split at h
    · rename_i hp
      simp only [Option.some.injEq, Prod.mk.injEq] at h
      obtain ⟨rfl, rfl⟩ := h
      have : pat = [] := by simpa using hp
      simp [this]
    · simp at h
  | cons c cs ih =>
    simp only [splitAtFirst] at h
    split at h
    · rename_i hp
      simp only [Option.some.injEq, Prod.mk.injEq] at h
      obtain ⟨rfl, rfl⟩ := h
      have hpre : pat <+: c :: cs := List.isPrefixOf_iff_prefix.mp hp
      refine ⟨?_, fun _ _ _ => by simp⟩
      simpa using (List.prefix_iff_eq_append.mp hpre).symm
    · rename_i hp
      cases hrec : splitAtFirst pat cs with
      | none => simp [hrec] at h
      | some p =>
        obtain ⟨p1, p2⟩ := p
        simp only [hrec, Option.map_some', Option.some.injEq, Prod.mk.injEq] at h
        obtain ⟨rfl, rfl⟩ := h
        obtain ⟨heq, hmin⟩ := ih p1 p2 hrec
        refine ⟨by simp [heq], ?_⟩
        intro pre2 post2 h2
        cases pre2 with
        | nil =>
          exfalso
          apply hp
          apply List.isPrefixOf_iff_prefix.mpr
          exact ⟨post2, by simpa using h2.symm⟩
        | cons x pre3 =>
          simp only [List.cons_append, List.cons.injEq] at h2
          have := hmin pre3 post2 (by simpa using h2.2)
          simp only [List.length_cons]
          omega

theorem splitAtFirst_none (pat : List Char) (s : List Char)
    (h : splitAtFirst pat s = none) : ¬ pat <:+: s := by
  induction s with
  | nil =>
    simp only [splitAtFirst] at h
    split at h
    · simp at h
    · rename_i hp
      rintro ⟨a, b, hab⟩
      have : pat = [] := by
        have := congrArg List.length hab
        simp only [List.length_append, List.length_nil] at this
        exact List.length_eq_zero.mp (by omega)
      exact hp (by simp [this])
  | cons c cs ih =>
    simp only [splitAtFirst] at h
    split at h
    · simp at h
    · rename_i hp
      have hrec : splitAtFirst pat cs = none := by
        cases hr : splitAtFirst pat cs with
        | none => rfl
        | some p => simp [hr] at h
      rintro ⟨a, b, hab⟩
      cases a with
      | nil =>
        apply hp
        apply List.isPrefixOf_iff_prefix.mpr
        exact ⟨b, by simpa using hab⟩
      | cons x a2 =>
        simp only [List.cons_append, List.cons.injEq] at hab
        exact ih hrec ⟨a2, b, hab.2⟩

theorem jsReplace_replacesFirst (s pat rep : String) (h : '$' ∉ rep.data) :
    ReplacesFirst pat.data rep.data s.data (jsReplace s pat rep).data := by
  unfold jsReplace
  cases hsplit : splitAtFirst pat.data s.data with
  | none => exact Or.inr ⟨splitAtFirst_none _ _ hsplit, rfl⟩
  | some p =>
    obtain ⟨pre, post⟩ := p
    obtain ⟨heq, hmin⟩ := splitAtFirst_some _ _ _ _ hsplit
    exact Or.inl ⟨pre, post, heq, hmin, by simp [getSubstitution_of_no_dollar _ _ _ _ h]⟩

theorem substituteStrings_chain (params : JSValue) (keys : List String)
    (hstr : ∀ key ∈ keys, isString (getProp params key) = true)
    (hdollar : ∀ key ∈ keys, '$' ∉ (stringProp params key).data) (u : String) :
    SubstChain params keys u (substituteStrings params keys u) := by
  induction keys generalizing u with
  | nil => exact SubstChain.done u
  | cons key keys ih =>
    have hk := hstr key (List.mem_cons_self _ _)
    have hd := hdollar key (List.mem_cons_self _ _)
    cases hv : getProp params key with
    | str v =>
      have hsp : stringProp params key = v := by simp [stringProp, hv]
      rw [hsp] at hd
      simp only [substituteStrings, hsp]
      exact SubstChain.step key keys u v _ _ hv (jsReplace_replacesFirst u _ v hd)
        (ih (fun k hk => hstr k (List.mem_cons_of_mem _ hk))
          (fun k hk => hdollar k (List.mem_cons_of_mem _ hk)) _)
    | _ => simp [hv, isString] at hk

/-- C5, as amended: on a well-typed request body whose parameter values
contain no dollar sign, the configuration is built and its URL is the
request's URL in which, for each key of `params` taken in iteration order, the
leftmost occurrence of `:key` (if there is one) has been replaced by the
corresponding value; later occurrences of the same `:key` stay. -/
theorem path_substitution (H : Host) (reqBody : JSValue) (h : wellTyped reqBody = true)
    (hdollar : ∀ key ∈ objectKeys (paramsOf reqBody),
      '$' ∉ (stringProp (paramsOf reqBody) key).data) :
    ∃ config u w, getProp reqBody "url" = .str u
      ∧ requestConfig H reqBody = .ok config
      ∧ config.url = .str w
      ∧ SubstChain (paramsOf reqBody) (objectKeys (paramsOf reqBody)) u w := by
  obtain ⟨u, m, hu, _, hc⟩ := requestConfig_wellTyped H reqBody h
  simp only [wellTyped, Bool.and_eq_true] at h
  obtain ⟨_, _, hstr⟩ := paramsOf_wellTyped reqBody h.2
  exact ⟨_, u, _, hu, hc, rfl, substituteStrings_chain _ _ hstr hdollar u⟩

/-- C5, as amended, at `{url:'https://api.test/users/:id', params:{id:'42'}}`:
the outbound URL is `https://api.test/users/42`. -/
theorem path_substitution_witness :
    (∃ config u w,
        getProp (.obj [("url", .str "https://api.test/users/:id"),
          ("params", .obj [("id", .str "42")])]) "url" = .str u
        ∧ requestConfig (exampleHost fun _ => .failed typeErrorReplace)
            (.obj [("url", .str "https://api.test/users/:id"),
              ("params", .obj [("id", .str "42")])]) = .ok config
        ∧ config.url = .str w
        ∧ SubstChain
            (paramsOf (.obj [("url", .str "https://api.test/users/:id"),
              ("params", .obj [("id", .str "42")])]))
            (objectKeys (paramsOf (.obj [("url", .str "https://api.test/users/:id"),
              ("params", .obj [("id", .str "42")])]))) u w)
      ∧ requestConfig (exampleHost fun _ => .failed typeErrorReplace)
          (.obj [("url", .str "https://api.test/users/:id"),
            ("params", .obj [("id", .str "42")])])
        = .ok ⟨"POST", .str "https://api.test/users/42", .num (JSNum.ofNat 300000),
            defaultHeaders, some (.obj []), none⟩ :=
  ⟨path_substitution (exampleHost fun _ => .failed typeErrorReplace)
      (.obj [("url", .str "https://api.test/users/:id"), ("params", .obj [("id", .str "42")])])
      (by decide) (by decide),
    rfl⟩

/-- C5, as stated, fails for a URL that contains `:id` twice: replacing every
occurrence would give `https://api.test/users/42/friends/42`, and the
outbound URL is `https://api.test/users/42/friends/:id`. -/
theorem path_substitution_counterexample :
    substituteEvery (.obj [("id", .str "42")]) ["id"] "https://api.test/users/:id/friends/:id"
        = "https://api.test/users/42/friends/42"
      ∧ requestConfig (exampleHost fun _ => .failed typeErrorReplace)
          (.obj [("url", .str "https://api.test/users/:id/friends/:id"),
            ("params", .obj [("id", .str "42")])])
        = .ok ⟨"POST", .str "https://api.test/users/42/friends/:id",
            .num (JSNum.ofNat 300000), defaultHeaders, some (.obj []), none⟩
      ∧ JSValue.str "https://api.test/users/42/friends/:id"
        ≠ JSValue.str "https://api.test/users/42/friends/42" := by
  refine ⟨by decide, rfl, ?_⟩
  intro h
  have h2 : "https://api.test/users/42/friends/:id" = "https://api.test/users/42/friends/42" :=
    JSValue.str.inj h
  exact absurd h2 (by decide)

end NodeProxy
